import Mathlib

/-!
Shallow embedding of the EC2 cloud controller (`nova/api/ec2/cloud.py`,
class `CloudController`) and proofs about its operations.

Modelling conventions:
* The Python operations act on records held in a distributed store and emit
  AMQP messages.  Here every operation is a pure function: the relevant
  record collections are explicit arguments, the updated collections and the
  list of emitted fire-and-forget messages (`rpc.cast`) are explicit results.
* Python exceptions become `Except Err`; the error constructors mirror the
  exception classes of `nova.exception` (plus `nameError` for a Python
  `NameError` on an unbound local and `assertionError` for a failed assert).
* Dynamic string-keyed records become typed structures with the fields named
  in the data model; `dict.get(k, d)` on an optional field becomes
  `Option.getD`, and Python string truthiness (`if not s:` treats both `None`
  and `""` as false) is modelled by `truthy`.
* Code of the repository that `cloud.py` calls but that is outside the file
  (volume service state machine, network model lookups, image registry,
  key-pair lookup, instance directory) is modelled from the spec; each such
  definition carries a doc comment starting with `Modelled from the spec:`.
-/

namespace Nova

/-- Error kinds of the controller.  `notFound` embeds `exception.NotFound`,
`apiError` embeds `exception.ApiError` (the spec's Conflict signal),
`invalidState` embeds `exception.Error` (the spec's InvalidState),
`nameError` embeds a Python `NameError` on an unbound local and
`assertionError` a failed `assert`. -/
inductive Err where
  | notFound (msg : String)
  | apiError (msg : String)
  | invalidState (msg : String)
  | nameError (nm : String)
  | assertionError
deriving DecidableEq

/-- Python truthiness of an optional string: `None` and `""` are falsy. -/
def truthy : Option String → Bool
  | none => false
  | some s => s != ""

/-- Whether an `Except` computation succeeded. -/
def exceptOk {α : Type} : Except Err α → Bool
  | Except.ok _ => true
  | Except.error _ => false

/-- The authorization context attached to every request: requesting user,
requesting project and the admin flag (`context.user`, `context.project`,
`context.user.is_admin()`), plus the request id used in responses. -/
structure Context where
  userId : String
  projectId : String
  isAdmin : Bool
  requestId : String
deriving DecidableEq

/-- An instance record, typed per the data model.  `node_name` holds the
sentinel `"unassigned"` before scheduling. -/
structure Instance where
  instance_id : String
  reservation_id : String
  ami_launch_index : Nat
  node_name : String
  project_id : String
  user_id : String
  image_id : String
  kernel_id : String
  ramdisk_id : String
  private_dns_name : Option String
  dns_name : Option String
  instance_type : String
  key_name : String
  key_data : String
  user_data : String
  security_group : String
  launch_time : String
  state : Nat
  state_description : String
  hostname : String
  groups : Option (List String)
deriving DecidableEq

/-- A volume record.  `instance_id` / `mountpoint` / `attach_time` are absent
(`none`) while the volume is not attached. -/
structure Volume where
  volume_id : String
  project_id : String
  user_id : String
  node_name : String
  size : Nat
  availability_zone : String
  create_time : String
  status : String
  attach_status : String
  instance_id : Option String
  mountpoint : Option String
  attach_time : Option String
  delete_on_termination : Bool
deriving DecidableEq

/-- An elastic-address record (`network_model.ElasticIp`); `instance_id` is
absent while the address is free. -/
structure Address where
  address : String
  project_id : String
  user_id : String
  instance_id : Option String
deriving DecidableEq

/-- An observable side effect of an operation: a fire-and-forget message
(`rpc.cast topic {method, args}`) or the destruction of an instance record
(`instance.destroy()`). -/
inductive Effect where
  | cast (topic : String) (method : String) (args : List (String × String))
  | destroy (instance_id : String)
deriving DecidableEq

/-! ## Lookups (`_get_instance`, `_get_volume`, `_get_address`, images) -/

/-- `CloudController._get_instance`: scan all instance records; return the
first whose id matches and which the context may see (admin, or same
project); otherwise `NotFound`.  A record that matches the id but belongs to
another project is skipped exactly like a record that does not match at
all. -/
def _get_instance (ctx : Context) (instances : List Instance)
    (instance_id : String) : Except Err Instance :=
  match instances.find? (fun inst =>
      inst.instance_id == instance_id
        && (ctx.isAdmin || inst.project_id == ctx.projectId)) with
  | some inst => Except.ok inst
  | none => Except.error (Err.notFound ("Instance " ++ instance_id
      ++ " could not be found"))

/-- Modelled from the spec: the Volume Registry lookup
(`nova.volume.service.get_volume`, not under `src/`): resolve a volume id to
its record, `NotFound` when the store has no such volume (spec section 7:
an absent resource surfaces as NotFound). -/
def get_volume (volumes : List Volume) (volume_id : String) :
    Except Err Volume :=
  match volumes.find? (fun v => v.volume_id == volume_id) with
  | some v => Except.ok v
  | none => Except.error (Err.notFound ("Volume " ++ volume_id
      ++ " not found"))

/-- `CloudController._get_volume`: resolve the volume, then authorize: admin
or owning project sees it, anyone else gets the same `NotFound` signal. -/
def _get_volume (ctx : Context) (volumes : List Volume)
    (volume_id : String) : Except Err Volume :=
  match get_volume volumes volume_id with
  | Except.error e => Except.error e
  | Except.ok volume =>
    if ctx.isAdmin || volume.project_id == ctx.projectId then
      Except.ok volume
    else
      Except.error (Err.notFound ("Volume " ++ volume_id
        ++ " could not be found"))

/-- Modelled from the spec: `network_model.ElasticIp.lookup` (not under
`src/`): find the elastic-address record for a public ip, if any. -/
def elasticIpLookup (addresses : List Address) (public_ip : String) :
    Option Address :=
  addresses.find? (fun a => a.address == public_ip)

/-- `CloudController._get_address`: resolve the elastic address, then
authorize; an address owned by another project raises the same `NotFound`
as a missing address. -/
def _get_address (ctx : Context) (addresses : List Address)
    (public_ip : String) : Except Err Address :=
  match elasticIpLookup addresses public_ip with
  | some address =>
    if ctx.isAdmin || address.project_id == ctx.projectId then
      Except.ok address
    else
      Except.error (Err.notFound ("Address at ip " ++ public_ip
        ++ " not found"))
  | none => Except.error (Err.notFound ("Address at ip " ++ public_ip
      ++ " not found"))

/-- Modelled from the spec: `network_model.get_public_ip_for_instance` (not
under `src/`): the public ip of the elastic address currently associated
with the instance, if any. -/
def get_public_ip_for_instance (addresses : List Address)
    (instance_id : String) : Option String :=
  (addresses.find? (fun a => a.instance_id == some instance_id)).map
    (fun a => a.address)

/-- An image descriptor as returned by the image registry. -/
structure Image where
  imageId : String
  kernelId : Option String
  ramdiskId : Option String
deriving DecidableEq

/-- Modelled from the spec: the image registry (`nova.api.ec2.images`, not
under `src/`): `images.list(context, [image_id])` returns the descriptors
with that id among the images the context may access (the registry does its
own authorization, so the argument is the list of accessible images). -/
def imagesList (images : List Image) (image_id : String) : List Image :=
  images.filter (fun im => im.imageId == image_id)

/-- `CloudController._get_image`: resolve one image id to its descriptor;
`NotFound` when the registry returns nothing. -/
def _get_image (images : List Image) (image_id : String) :
    Except Err Image :=
  match imagesList images image_id with
  | [] => Except.error (Err.notFound ("Image " ++ image_id
      ++ " could not be found"))
  | im :: _ => Except.ok im

/-! ## Volume lifecycle state machine -/

/-- Modelled from the spec: `Volume.start_attach` (Volume Registry,
`nova.volume.service`, not under `src/`): only legal from status
`available`, otherwise Conflict; on success moves status/attach_status to
`attaching` and records `instance_id`, `mountpoint` and `attach_time`. -/
def start_attach (v : Volume) (instance_id device now : String) :
    Except Err Volume :=
  if v.status == "available" then
    Except.ok { v with
      status := "attaching"
      attach_status := "attaching"
      instance_id := some instance_id
      mountpoint := some device
      attach_time := some now }
  else
    Except.error (Err.apiError ("Volume is not available"))

/-- Modelled from the spec: `Volume.start_detach`: only legal when
`attach_status` is `attached`; otherwise fails with InvalidState
("already detached"). -/
def start_detach (v : Volume) : Except Err Volume :=
  if v.attach_status == "attached" then
    Except.ok { v with status := "detaching", attach_status := "detaching" }
  else
    Except.error (Err.invalidState ("Volume is already detached"))

/-- Modelled from the spec: `Volume.finish_detach`: unconditional reset to
`available`, clearing `instance_id`, `mountpoint` and `attach_time`.  This
is the reconciliation path: it must be safe to force without node
confirmation. -/
def finish_detach (v : Volume) : Volume :=
  { v with
    status := "available"
    attach_status := "detached"
    instance_id := none
    mountpoint := none
    attach_time := none }

/-- Persisting a mutated volume record back into the store: replace the
record with the same `volume_id`. -/
def updateVolume (volumes : List Volume) (v : Volume) : List Volume :=
  volumes.map (fun w => if w.volume_id == v.volume_id then v else w)

/-- The response dictionary of `attach_volume` / `detach_volume`. -/
structure VolOpResult where
  attachTime : Option String
  device : Option String
  instanceId : String
  requestId : String
  status : String
  volumeId : String
deriving DecidableEq

/-- `CloudController.attach_volume`: resolve and authorize the volume; raise
`ApiError` if it is already attached; scan every volume for one already
holding the `(instance_id, device)` pair and raise `ApiError` on a
collision; transition via `start_attach`; resolve the target instance and
cast `attach_volume` to its compute node.  Results: the volume store after
the call, the casts emitted, and the response or error.  `now` stands for
the wall-clock attach time recorded by the transition. -/
def attach_volume (fl_compute_topic : String) (ctx : Context)
    (volumes : List Volume) (instances : List Instance)
    (volume_id instance_id device now : String) :
    List Volume × List Effect × Except Err VolOpResult :=
  match _get_volume ctx volumes volume_id with
  | Except.error e => (volumes, [], Except.error e)
  | Except.ok volume =>
    if volume.status == "attached" then
      (volumes, [], Except.error (Err.apiError ("Volume is already attached")))
    else
      match volumes.find? (fun vol =>
          vol.instance_id == some instance_id
            && vol.mountpoint == some device) with
      | some vol =>
        (volumes, [], Except.error (Err.apiError ("Volume " ++ vol.volume_id
          ++ " is already attached to " ++ vol.mountpoint.getD (""))))
      | none =>
        match start_attach volume instance_id device now with
        | Except.error e => (volumes, [], Except.error e)
        | Except.ok v1 =>
          match _get_instance ctx instances instance_id with
          | Except.error e => (updateVolume volumes v1, [], Except.error e)
          | Except.ok inst =>
            (updateVolume volumes v1,
             [Effect.cast (fl_compute_topic ++ "." ++ inst.node_name)
               ("attach_volume")
               [(("volume_id"), volume_id), (("instance_id"), instance_id),
                (("mountpoint"), device)]],
             Except.ok {
               attachTime := v1.attach_time
               device := v1.mountpoint
               instanceId := instance_id
               requestId := ctx.requestId
               status := v1.attach_status
               volumeId := volume_id })

/-- `CloudController.detach_volume`: resolve and authorize the volume; error
if it records no owning instance or is already `available`; transition via
`start_detach`; then resolve the owning instance and cast `detach_volume`
to its node — but if that instance lookup raises `NotFound`, fall back to
the forced reconciliation `finish_detach` instead of propagating, and still
return normally. -/
def detach_volume (fl_compute_topic : String) (ctx : Context)
    (volumes : List Volume) (instances : List Instance)
    (volume_id : String) :
    List Volume × List Effect × Except Err VolOpResult :=
  match _get_volume ctx volumes volume_id with
  | Except.error e => (volumes, [], Except.error e)
  | Except.ok volume =>
    if truthy volume.instance_id = false then
      (volumes, [],
       Except.error (Err.invalidState ("Volume is not attached to anything")))
    else
      if volume.status == "available" then
        (volumes, [],
         Except.error (Err.invalidState ("Volume is already detached")))
      else
        match start_detach volume with
        | Except.error e => (volumes, [], Except.error e)
        | Except.ok v1 =>
          match _get_instance ctx instances (volume.instance_id.getD ("")) with
          | Except.ok inst =>
            (updateVolume volumes v1,
             [Effect.cast (fl_compute_topic ++ "." ++ inst.node_name)
               ("detach_volume")
               [(("instance_id"), volume.instance_id.getD ("")),
                (("volume_id"), volume_id)]],
             Except.ok {
               attachTime := v1.attach_time
               device := v1.mountpoint
               instanceId := volume.instance_id.getD ("")
               requestId := ctx.requestId
               status := v1.attach_status
               volumeId := volume_id })
          | Except.error _ =>
            let v2 := finish_detach v1
            (updateVolume volumes v2, [],
             Except.ok {
               attachTime := v2.attach_time
               device := v2.mountpoint
               instanceId := volume.instance_id.getD ("")
               requestId := ctx.requestId
               status := v2.attach_status
               volumeId := volume_id })

/-! ## Instance termination -/

/-- One iteration of the `terminate_instances` loop on instance id `i`.
State: the instance store plus the effects emitted so far.  A `NotFound`
lookup is logged and skipped (the state is returned unchanged); otherwise:
cast `disassociate_elastic_ip` if the instance owns an elastic ip, cast
`deallocate_fixed_ip` if it holds a private address, then either cast
`terminate_instance` to its node (when `node_name` is assigned) or destroy
the record directly (when it is the `"unassigned"` sentinel).
`network_topic` is the project's network topic resolved by
`_get_network_topic` before the loop. -/
def terminate_one (fl_compute_topic : String) (ctx : Context)
    (addresses : List Address) (network_topic : String)
    (st : List Instance × List Effect) (i : String) :
    List Instance × List Effect :=
  match _get_instance ctx st.1 i with
  | Except.error _ => st
  | Except.ok inst =>
    let elastic_ip := get_public_ip_for_instance addresses i
    let effs1 :=
      if truthy elastic_ip then
        st.2 ++ [Effect.cast network_topic ("disassociate_elastic_ip")
          [(("elastic_ip"), elastic_ip.getD (""))]]
      else st.2
    let fixed_ip := inst.private_dns_name
    let effs2 :=
      if truthy fixed_ip then
        effs1 ++ [Effect.cast network_topic ("deallocate_fixed_ip")
          [(("fixed_ip"), fixed_ip.getD (""))]]
      else effs1
    if inst.node_name != "unassigned" then
      (st.1, effs2 ++ [Effect.cast (fl_compute_topic ++ "." ++ inst.node_name)
        ("terminate_instance") [(("instance_id"), i)]])
    else
      (st.1.filter (fun j => j.instance_id != inst.instance_id),
       effs2 ++ [Effect.destroy inst.instance_id])

/-- `CloudController.terminate_instances`: process each requested id in turn
with `terminate_one` and return `True` once all ids are processed,
regardless of individual not-found outcomes. -/
def terminate_instances (fl_compute_topic : String) (ctx : Context)
    (addresses : List Address) (network_topic : String)
    (instances : List Instance) (instance_id : List String) :
    (List Instance × List Effect) × Bool :=
  (instance_id.foldl (terminate_one fl_compute_topic ctx addresses
    network_topic) (instances, []), true)

/-! ## Address listing (`describe_addresses` / `format_addresses`) -/

/-- One entry of the `addressesSet` response. -/
structure AddressRv where
  public_ip : String
  instance_id : String
deriving DecidableEq

/-- The body of the `format_addresses` loop, modelled faithfully to the
source's scoping: the local `address_rv` persists across iterations and the
`addresses.append(address_rv)` sits OUTSIDE the authorization `if`, so an
iteration over a foreign-project address (non-admin) re-appends the stale
`address_rv` from an earlier iteration — or dereferences an unbound local
(`nameError`) when no earlier iteration built one.  For an admin the
`instance_id` field is annotated with owner detail (a record whose
`instance_id` is absent prints as `"None"`, as Python renders `None`). -/
def format_addresses_go (ctx : Context) :
    List Address → Option AddressRv → List AddressRv →
    Except Err (List AddressRv)
  | [], _, acc => Except.ok acc
  | address :: rest, address_rv, acc =>
    let address_rv1 :=
      if ctx.isAdmin || address.project_id == ctx.projectId then
        some (if ctx.isAdmin then
          { public_ip := address.address
            instance_id := address.instance_id.getD ("None") ++ " ("
              ++ address.user_id ++ ", " ++ address.project_id ++ ")" }
        else
          { public_ip := address.address
            instance_id := address.instance_id.getD ("free") })
      else address_rv
    match address_rv1 with
    | none => Except.error (Err.nameError ("address_rv"))
    | some rv => format_addresses_go ctx rest address_rv1 (acc ++ [rv])

/-- `CloudController.format_addresses` (the body of `describe_addresses`):
iterate every elastic-address record and build the `addressesSet` list. -/
def format_addresses (ctx : Context) (addresses : List Address) :
    Except Err (List AddressRv) :=
  format_addresses_go ctx addresses none []

/-! ## Instance listing and formatting -/

/-- `CloudController._convert_to_set`: `None` and the empty list collapse to
`None`; otherwise the values are kept (each wrapped under a label in the
source). -/
def _convert_to_set : Option (List String) → Option (List String)
  | none => none
  | some [] => none
  | some xs => some xs

/-- One entry of a reservation's `instances_set`. -/
structure InstanceView where
  instance_id : String
  image_id : String
  state_code : Nat
  state_name : String
  public_dns_name : Option String
  private_dns_name : Option String
  dns_name : Option String
  key_name : String
  instance_type : String
  launch_time : String
  ami_launch_index : Nat
deriving DecidableEq

/-- A reservation summary: the instance views grouped under one
`reservation_id`, with `owner_id` and `group_set` copied from the first
instance encountered for that reservation. -/
structure Reservation where
  reservation_id : String
  owner_id : String
  group_set : Option (List String)
  instances_set : List InstanceView
deriving DecidableEq

/-- The per-instance dictionary `i` built inside `_format_instances`:
public dns falls back to the private address when no elastic ip is
associated, and an admin sees project/node detail annotated into
`key_name`. -/
def instView (ctx : Context) (addresses : List Address) (inst : Instance) :
    InstanceView :=
  let pub := get_public_ip_for_instance addresses inst.instance_id
  { instance_id := inst.instance_id
    image_id := inst.image_id
    state_code := inst.state
    state_name := inst.state_description
    public_dns_name := if truthy pub then pub else inst.private_dns_name
    private_dns_name := inst.private_dns_name
    dns_name := inst.dns_name
    key_name :=
      if ctx.isAdmin then
        inst.key_name ++ " (" ++ inst.project_id ++ ", "
          ++ inst.node_name ++ ")"
      else inst.key_name
    instance_type := inst.instance_type
    launch_time := inst.launch_time
    ami_launch_index := inst.ami_launch_index }

/-- Insert one instance's view into the reservation grouping: append to the
existing reservation with the same `reservation_id`, or start a new one
carrying `owner_id` / `group_set` from this (first) instance. -/
def addRes (rs : List Reservation) (inst : Instance) (v : InstanceView) :
    List Reservation :=
  if rs.any (fun r => r.reservation_id == inst.reservation_id) then
    rs.map (fun r =>
      if r.reservation_id == inst.reservation_id then
        { r with instances_set := r.instances_set ++ [v] }
      else r)
  else
    rs ++ [{ reservation_id := inst.reservation_id
             owner_id := inst.project_id
             group_set := _convert_to_set inst.groups
             instances_set := [v] }]

/-- The per-instance skip conditions of the `_format_instances` loop: a
reservation-id filter (used by the `run_instances` result path), and the
hiding of the bootstrap-VPN image from non-admins. -/
def formatFilter (fl_vpn_image_id : String) (ctx : Context)
    (reservation_id : Option String) (inst : Instance) : Bool :=
  (match reservation_id with
   | some rid => rid == inst.reservation_id
   | none => true)
  && (ctx.isAdmin || inst.image_id != fl_vpn_image_id)

/-- `CloudController._format_instances`: an admin iterates every instance
record, a non-admin only the records of the caller's project; instances are
filtered by `formatFilter` and grouped into reservations by
`reservation_id`. -/
def _format_instances (fl_vpn_image_id : String) (ctx : Context)
    (addresses : List Address) (instances : List Instance)
    (reservation_id : Option String) : List Reservation :=
  let gen :=
    if ctx.isAdmin then instances
    else instances.filter (fun i => i.project_id == ctx.projectId)
  (gen.filter (formatFilter fl_vpn_image_id ctx reservation_id)).foldl
    (fun rs inst => addRes rs inst (instView ctx addresses inst)) []

/-- `CloudController.describe_instances`: the `reservationSet` returned to
the caller (no reservation-id filter). -/
def describe_instances (fl_vpn_image_id : String) (ctx : Context)
    (addresses : List Address) (instances : List Instance) :
    List Reservation :=
  _format_instances fl_vpn_image_id ctx addresses instances none

/-! ## Instance launch (`run_instances`) -/

/-- The ambient flag configuration read by `run_instances`. -/
structure Flags where
  compute_topic : String
  vpn_image_id : String
  default_kernel : String
  default_ramdisk : String
deriving DecidableEq

/-- The keyword arguments of a `run_instances` request. -/
structure RunArgs where
  image_id : String
  kernel_id : Option String
  ramdisk_id : Option String
  key_name : Option String
  instance_type : Option String
  user_data : Option String
  max_count : Nat
deriving DecidableEq

/-- The external collaborators and generated values a `run_instances` call
depends on: the accessible images, the caller's key pairs (name, public
key), the network service's `allocate_fixed_ip` responses (keyed by the new
instance's hostname; modelled from the spec as the networking fields of the
record), the freshly generated `reservation_id` and shared `launch_time`,
the instance directory's id counter, and the pre-existing instance
records. -/
structure RunEnv where
  images : List Image
  keyPairs : List (String × String)
  allocate : String → String
  reservation_id : String
  launch_time : String
  nextId : Nat
  instances : List Instance

/-- The key-pair resolution step of `run_instances`: when `key_name` is
given, look it up for the requesting user (modelled from the spec: the
auth manager's key-pair lookup is not under `src/`) and fail with
`ApiError` if absent; otherwise leave the key data empty. -/
def resolve_key_data (env : RunEnv) (args : RunArgs) :
    Except Err (Option String) :=
  match args.key_name with
  | none => Except.ok none
  | some kn =>
    match env.keyPairs.find? (fun kp => kp.1 == kn) with
    | none => Except.error (Err.apiError ("Key Pair " ++ kn ++ " not found"))
    | some kp => Except.ok (some kp.2)

/-- The instance record built and saved by iteration `num` of the
`run_instances` loop.  `instdir.new()` (modelled from the spec: the
Instance Directory is not under `src/`) allocates a fresh generated id; the
`allocate_fixed_ip` response is merged into the record as its private
address. -/
def mkInst (ctx : Context) (env : RunEnv) (args : RunArgs)
    (image_id kernel_id ramdisk_id : String) (key_data : Option String)
    (num : Nat) : Instance :=
  let iid := "i-" ++ toString (env.nextId + num)
  { instance_id := iid
    reservation_id := env.reservation_id
    ami_launch_index := num
    node_name := "unassigned"
    project_id := ctx.projectId
    user_id := ctx.userId
    image_id := image_id
    kernel_id := kernel_id
    ramdisk_id := ramdisk_id
    private_dns_name := some (env.allocate iid)
    dns_name := none
    instance_type := args.instance_type.getD ("m1.small")
    key_name := args.key_name.getD ("")
    key_data := key_data.getD ("")
    user_data := args.user_data.getD ("")
    security_group := "default"
    launch_time := env.launch_time
    state := 0
    state_description := "pending"
    hostname := iid
    groups := none }

/-- The records created by the `for num in range(int(kwargs['max_count']))`
loop of `run_instances`, in launch order. -/
def run_build (ctx : Context) (env : RunEnv) (args : RunArgs)
    (image_id kernel_id ramdisk_id : String) (key_data : Option String) :
    List Instance :=
  (List.range args.max_count).map
    (mkInst ctx env args image_id kernel_id ramdisk_id key_data)

/-- `CloudController.run_instances`: resolve and authorize the image —
except that when `image_id` equals the configured VPN image id the source
skips the assignment and then dereferences the unbound local `image`
(`image['imageId']`), a Python `NameError` (the source's own
`FIXME(ja): if image is cloudpipe, this breaks`); derive kernel/ramdisk
defaults from the descriptor with request overrides taking precedence;
verify both are accessible; resolve the key pair; then build, persist and
dispatch `max_count` instance records sharing the generated
`reservation_id` and `launch_time`; finally format the reservation summary,
asserting that exactly one reservation carries the fresh id. -/
def run_instances (fl : Flags) (ctx : Context) (env : RunEnv)
    (addresses : List Address) (args : RunArgs) :
    Except Err (Reservation × List Instance × List Effect) :=
  if args.image_id == fl.vpn_image_id then
    Except.error (Err.nameError ("image"))
  else
    match _get_image env.images args.image_id with
    | Except.error e => Except.error e
    | Except.ok image =>
      let kernel_id := args.kernel_id.getD (image.kernelId.getD
        fl.default_kernel)
      let ramdisk_id := args.ramdisk_id.getD (image.ramdiskId.getD
        fl.default_ramdisk)
      match _get_image env.images kernel_id with
      | Except.error e => Except.error e
      | Except.ok _ =>
        match _get_image env.images ramdisk_id with
        | Except.error e => Except.error e
        | Except.ok _ =>
          match resolve_key_data env args with
          | Except.error e => Except.error e
          | Except.ok key_data =>
            let insts := run_build ctx env args image.imageId kernel_id
              ramdisk_id key_data
            let store := env.instances ++ insts
            let effs := insts.map (fun inst =>
              Effect.cast fl.compute_topic ("run_instance")
                [(("instance_id"), inst.instance_id)])
            match _format_instances fl.vpn_image_id ctx addresses store
                (some env.reservation_id) with
            | [r] => Except.ok (r, store, effs)
            | _ => Except.error Err.assertionError

/-! ## Concrete records used by witnesses and counterexamples -/

/-- A non-admin caller of project `p1`. -/
def exCtx : Context :=
  { userId := "u1", projectId := "p1", isAdmin := false, requestId := "req-1" }

/-- An admin caller. -/
def exCtxAdmin : Context :=
  { userId := "ua", projectId := "pa", isAdmin := true, requestId := "req-2" }

/-- A free elastic address owned by project `p1`. -/
def exOwnAddr : Address :=
  { address := "10.0.0.1", project_id := "p1", user_id := "u1",
    instance_id := none }

/-- A free elastic address owned by the foreign project `p2`. -/
def exForeignAddr : Address :=
  { address := "10.0.0.2", project_id := "p2", user_id := "u2",
    instance_id := none }

/-- An available volume of project `p1`. -/
def exVolAvail : Volume :=
  { volume_id := "v-1", project_id := "p1", user_id := "u1",
    node_name := "n1", size := 10, availability_zone := "nova",
    create_time := "T0", status := "available", attach_status := "detached",
    instance_id := none, mountpoint := none, attach_time := none,
    delete_on_termination := false }

/-- A volume of project `p1` attached to instance `i-9` at `/dev/sdb`. -/
def exVolAttached : Volume :=
  { exVolAvail with
    volume_id := "v-2"
    status := "attached"
    attach_status := "attached"
    instance_id := some ("i-9")
    mountpoint := some ("/dev/sdb")
    attach_time := some ("T1") }

/-- A volume of project `p1` mid-attach (status `attaching`). -/
def exVolAttaching : Volume :=
  { exVolAttached with
    volume_id := "v-3"
    status := "attaching"
    attach_status := "attaching" }

/-- A volume owned by the foreign project `p2`. -/
def exForeignVol : Volume :=
  { exVolAvail with
    volume_id := "v-9"
    project_id := "p2"
    user_id := "u2" }

/-- A running instance of project `p1` scheduled on node `nodeA`. -/
def exInst : Instance :=
  { instance_id := "i-9", reservation_id := "r-0", ami_launch_index := 0,
    node_name := "nodeA", project_id := "p1", user_id := "u1",
    image_id := "ami-1", kernel_id := "aki-1", ramdisk_id := "ari-1",
    private_dns_name := some ("192.168.0.9"), dns_name := none,
    instance_type := "m1.small", key_name := "", key_data := "",
    user_data := "", security_group := "default", launch_time := "T",
    state := 0, state_description := "running", hostname := "i-9",
    groups := none }

/-- A never-scheduled instance of project `p1`. -/
def exInstUnassigned : Instance :=
  { exInst with instance_id := "i-10", node_name := "unassigned" }

/-- An instance owned by the foreign project `p2`. -/
def exForeignInst : Instance :=
  { exInst with instance_id := "i-f", project_id := "p2", user_id := "u2" }

/-! ## Claim C7: cross-project lookups are indistinguishable from absence -/

/-- Claim C7: for a non-admin caller, looking up an instance, volume or
elastic address that exists but belongs to a different project fails with
the same NotFound error as looking up a resource that does not exist at
all.  For instances and addresses the two results are literally equal (the
error and its message are produced by the same source line); for volumes
both cases yield a NotFound error (the absent-volume case is produced by
the spec-modelled Volume Registry lookup). -/
theorem foreign_resource_lookup_notfound
    (ctx : Context) (hadmin : ctx.isAdmin = false)
    (instances : List Instance) (iid : String)
    (volumes : List Volume) (vid : String)
    (addresses : List Address) (ip : String)
    (hinst : ∀ i ∈ instances, i.instance_id = iid →
      i.project_id ≠ ctx.projectId)
    (hvol : ∀ v ∈ volumes, v.volume_id = vid →
      v.project_id ≠ ctx.projectId)
    (haddr : ∀ a ∈ addresses, a.address = ip →
      a.project_id ≠ ctx.projectId) :
    (_get_instance ctx instances iid = _get_instance ctx [] iid
      ∧ ∃ m, _get_instance ctx instances iid
          = Except.error (Err.notFound m))
    ∧ (_get_address ctx addresses ip = _get_address ctx [] ip
      ∧ ∃ m, _get_address ctx addresses ip
          = Except.error (Err.notFound m))
    ∧ ((∃ m, _get_volume ctx volumes vid = Except.error (Err.notFound m))
      ∧ ∃ m, _get_volume ctx [] vid = Except.error (Err.notFound m)) := by
  have hfind : instances.find? (fun inst =>
      inst.instance_id == iid
        && (ctx.isAdmin || inst.project_id == ctx.projectId)) = none := by
    rw [List.find?_eq_none]
    intro i hi
    simp only [hadmin, Bool.false_or, Bool.and_eq_true, beq_iff_eq, not_and]
    intro h1 h2
    exact hinst i hi h1 h2
  refine ⟨⟨?_, ?_⟩, ⟨?_, ?_⟩, ?_, ?_⟩
  · unfold _get_instance
    rw [hfind]
    rfl
  · unfold _get_instance
    rw [hfind]
    exact ⟨_, rfl⟩
  · unfold _get_address elasticIpLookup
    cases hl : addresses.find? (fun a => a.address == ip) with
    | none => rfl
    | some a =>
      have hmem := List.mem_of_find?_eq_some hl
      have hp := List.find?_some hl
      simp only [beq_iff_eq] at hp
      have : (ctx.isAdmin || (a.project_id == ctx.projectId)) = false := by
        simp [hadmin, haddr a hmem hp]
      simp [this]
  · unfold _get_address elasticIpLookup
    cases hl : addresses.find? (fun a => a.address == ip) with
    | none => exact ⟨_, rfl⟩
    | some a =>
      have hmem := List.mem_of_find?_eq_some hl
      have hp := List.find?_some hl
      simp only [beq_iff_eq] at hp
      have : (ctx.isAdmin || (a.project_id == ctx.projectId)) = false := by
        simp [hadmin, haddr a hmem hp]
      simp [this]
  · unfold _get_volume get_volume
    cases hl : volumes.find? (fun v => v.volume_id == vid) with
    | none => exact ⟨_, rfl⟩
    | some v =>
      have hmem := List.mem_of_find?_eq_some hl
      have hp := List.find?_some hl
      simp only [beq_iff_eq] at hp
      have : (ctx.isAdmin || (v.project_id == ctx.projectId)) = false := by
        simp [hadmin, hvol v hmem hp]
      simp [this]
  · exact ⟨_, rfl⟩

/-- Witness for C7 at concrete stores: every listed resource matches the
requested id but belongs to project `p2`, the caller is a non-admin of
`p1`. -/
theorem foreign_resource_lookup_notfound_witness :
    (_get_instance exCtx [exForeignInst] ("i-f")
        = _get_instance exCtx [] ("i-f")
      ∧ ∃ m, _get_instance exCtx [exForeignInst] ("i-f")
          = Except.error (Err.notFound m))
    ∧ (_get_address exCtx [exForeignAddr] ("10.0.0.2")
        = _get_address exCtx [] ("10.0.0.2")
      ∧ ∃ m, _get_address exCtx [exForeignAddr] ("10.0.0.2")
          = Except.error (Err.notFound m))
    ∧ ((∃ m, _get_volume exCtx [exForeignVol] ("v-9")
          = Except.error (Err.notFound m))
      ∧ ∃ m, _get_volume exCtx [] ("v-9")
          = Except.error (Err.notFound m)) :=
  foreign_resource_lookup_notfound exCtx rfl [exForeignInst] ("i-f")
    [exForeignVol] ("v-9") [exForeignAddr] ("10.0.0.2")
    (by decide) (by decide) (by decide)

/-! ## Claim C2: attaching a non-available volume is a Conflict -/

/-- Claim C2: `attach_volume` on a volume whose status is `attached`,
`attaching` or `detaching` fails with a Conflict (`ApiError`) and leaves
the volume store unchanged with no command cast.  The `attached` case is
rejected by the controller's own check; the `attaching`/`detaching` cases
are rejected either by the device-collision scan or by the spec-modelled
`start_attach` guard (only legal from `available`), in every case before
any transition is persisted. -/
theorem attach_volume_nonavailable_conflict
    (topic : String) (ctx : Context) (volumes : List Volume)
    (instances : List Instance) (volume_id instance_id device now : String)
    (volume : Volume)
    (hget : _get_volume ctx volumes volume_id = Except.ok volume)
    (hst : volume.status = "attached" ∨ volume.status = "attaching"
      ∨ volume.status = "detaching") :
    ∃ msg, attach_volume topic ctx volumes instances volume_id instance_id
        device now
      = (volumes, [], Except.error (Err.apiError msg)) := by
  rcases hst with h | h | h
  · simp only [attach_volume, hget, h]
    exact ⟨_, rfl⟩
  all_goals
    simp only [attach_volume, hget, h]
    cases hf : volumes.find? (fun vol =>
        vol.instance_id == some instance_id
          && vol.mountpoint == some device) with
    | some vol =>
      simp only []
      exact ⟨_, rfl⟩
    | none =>
      simp only [start_attach, h]
      exact ⟨_, rfl⟩

/-- Witness for C2: attaching the mid-attach volume `v-3` (status
`attaching`) to a fresh device fails with a Conflict and changes
nothing. -/
theorem attach_volume_nonavailable_conflict_witness :
    ∃ msg, attach_volume ("compute") exCtx [exVolAttaching] [exInst]
        ("v-3") ("i-8") ("/dev/sdc") ("T2")
      = ([exVolAttaching], [], Except.error (Err.apiError msg)) :=
  attach_volume_nonavailable_conflict ("compute") exCtx [exVolAttaching]
    [exInst] ("v-3") ("i-8") ("/dev/sdc") ("T2") exVolAttaching rfl
    (Or.inr (Or.inl rfl))

/-! ## Claim C3: device collision is a Conflict -/

/-- Claim C3: if some other volume in the store already records the exact
`(instance_id, device)` pair requested, `attach_volume` fails with a
Conflict (`ApiError`) regardless of that volume's remaining fields, and the
target volume is not transitioned (store unchanged, no cast). -/
theorem attach_volume_device_collision_conflict
    (topic : String) (ctx : Context) (volumes : List Volume)
    (instances : List Instance) (volume_id instance_id device now : String)
    (volume other : Volume)
    (hget : _get_volume ctx volumes volume_id = Except.ok volume)
    (hother : other ∈ volumes) (hne : other.volume_id ≠ volume_id)
    (hpair : other.instance_id = some instance_id
      ∧ other.mountpoint = some device) :
    ∃ msg, attach_volume topic ctx volumes instances volume_id instance_id
        device now
      = (volumes, [], Except.error (Err.apiError msg)) := by
  unfold attach_volume
  rw [hget]
  cases hatt : volume.status == "attached" with
  | true =>
    simp only [hatt]
    exact ⟨_, rfl⟩
  | false =>
    simp only [hatt]
    have hsome : (volumes.find? (fun vol =>
        vol.instance_id == some instance_id
          && vol.mountpoint == some device)).isSome = true := by
      rw [List.find?_isSome]
      exact ⟨other, hother, by simp [hpair.1, hpair.2]⟩
    cases hf : volumes.find? (fun vol =>
        vol.instance_id == some instance_id
          && vol.mountpoint == some device) with
    | none => rw [hf] at hsome; simp at hsome
    | some vol =>
      simp only []
      exact ⟨_, rfl⟩

/-- Witness for C3: volume `v-2` already records `(i-9, /dev/sdb)`, so
attaching the available volume `v-1` there is a Conflict and changes
nothing. -/
theorem attach_volume_device_collision_conflict_witness :
    ∃ msg, attach_volume ("compute") exCtx [exVolAttached, exVolAvail]
        [exInst] ("v-1") ("i-9") ("/dev/sdb") ("T2")
      = ([exVolAttached, exVolAvail], [],
         Except.error (Err.apiError msg)) :=
  attach_volume_device_collision_conflict ("compute") exCtx
    [exVolAttached, exVolAvail] [exInst] ("v-1") ("i-9") ("/dev/sdb")
    ("T2") exVolAvail exVolAttached rfl (by decide) (by decide)
    ⟨rfl, rfl⟩

/-! ## Claim C4: detach of a volume whose owner instance vanished -/

/-- Claim C4: `detach_volume` on an attached volume whose recorded owning
instance can no longer be found does not propagate the `NotFound`: it
forces the reconciliation path `finish_detach`, resetting the volume to
`available` with its attachment fields cleared, emits no node command, and
returns normally. -/
theorem detach_volume_vanished_instance_reconciles
    (topic : String) (ctx : Context) (volumes : List Volume)
    (instances : List Instance) (volume_id iid : String) (volume : Volume)
    (hget : _get_volume ctx volumes volume_id = Except.ok volume)
    (hiid : volume.instance_id = some iid) (hne : iid ≠ "")
    (hst : volume.status = "attached")
    (hast : volume.attach_status = "attached")
    (hnf : exceptOk (_get_instance ctx instances iid) = false) :
    ∃ v2 res,
      detach_volume topic ctx volumes instances volume_id
        = (updateVolume volumes v2, [], Except.ok res)
      ∧ v2.volume_id = volume.volume_id
      ∧ v2.status = "available"
      ∧ v2.instance_id = none
      ∧ v2.mountpoint = none
      ∧ v2.attach_time = none := by
  have htr : truthy (some iid) = true := by
    simp only [truthy, bne_iff_ne, ne_eq, decide_eq_true_eq]
    exact hne
  simp only [detach_volume, hget, hiid, Option.getD_some, htr, hst, hast,
    start_detach]
  cases hgi : _get_instance ctx instances iid with
  | ok inst =>
    rw [hgi] at hnf
    simp [exceptOk] at hnf
  | error e =>
    exact ⟨_, _, rfl, rfl, rfl, rfl, rfl, rfl⟩

/-- Witness for C4: detaching `v-2`, attached to the vanished instance
`i-9`, with an empty instance store. -/
theorem detach_volume_vanished_instance_reconciles_witness :
    ∃ v2 res,
      detach_volume ("compute") exCtx [exVolAttached] [] ("v-2")
        = (updateVolume [exVolAttached] v2, [], Except.ok res)
      ∧ v2.volume_id = exVolAttached.volume_id
      ∧ v2.status = "available"
      ∧ v2.instance_id = none
      ∧ v2.mountpoint = none
      ∧ v2.attach_time = none :=
  detach_volume_vanished_instance_reconciles ("compute") exCtx
    [exVolAttached] [] ("v-2") ("i-9") exVolAttached rfl rfl
    (by decide) rfl rfl rfl

/-! ## Claim C9: describe_addresses scoping bug -/

/-- Claim C9 fails on the code: `format_addresses` appends one entry per
iterated address even when the authorization filter rejects it, because
the `addresses.append(address_rv)` sits outside the `if`.  For the
non-admin of project `p1` and the store `[own p1 address, foreign p2
address]` the call returns TWO entries — the foreign address's iteration
re-appends the stale entry built for the own address — instead of exactly
the single own-project entry the claim (and the spec's filtering rule)
requires. -/
theorem format_addresses_foreign_iteration_duplicates :
    format_addresses exCtx [exOwnAddr, exForeignAddr]
      = Except.ok
          [{ public_ip := "10.0.0.1", instance_id := "free" },
           { public_ip := "10.0.0.1", instance_id := "free" }]
    ∧ [exOwnAddr, exForeignAddr].filter
        (fun a => a.project_id == exCtx.projectId) = [exOwnAddr] := by
  exact ⟨rfl, rfl⟩

/-! ## Claim C10: run_instances on the VPN image id -/

/-- Claim C10 fails on the code: when the requested `image_id` equals the
configured VPN image id, `run_instances` skips the image-resolution
assignment and then dereferences the unbound local `image`
(`image['imageId']`) — a `NameError`, acknowledged by the source's own
`FIXME(ja): if image is cloudpipe, this breaks` — instead of resolving the
image before use as the claim requires. -/
theorem run_instances_vpn_image_unbound
    (fl : Flags) (ctx : Context) (env : RunEnv) (addresses : List Address)
    (args : RunArgs) (h : args.image_id = fl.vpn_image_id) :
    run_instances fl ctx env addresses args
      = Except.error (Err.nameError ("image")) := by
  unfold run_instances
  simp [h]

/-- Witness for C10: a concrete request for the configured VPN image id
`ami-vpn` hits the unbound-local failure. -/
theorem run_instances_vpn_image_unbound_witness :
    run_instances
      { compute_topic := "compute", vpn_image_id := "ami-vpn",
        default_kernel := "aki-1", default_ramdisk := "ari-1" }
      exCtx
      { images := [], keyPairs := [], allocate := fun _ => "",
        reservation_id := "r-1", launch_time := "T", nextId := 0,
        instances := [] }
      []
      { image_id := "ami-vpn", kernel_id := none, ramdisk_id := none,
        key_name := none, instance_type := none, user_data := none,
        max_count := 1 }
      = Except.error (Err.nameError ("image")) :=
  run_instances_vpn_image_unbound _ _ _ _ _ rfl

/-! ## Claim C6: terminate is node-scoped only for scheduled instances -/

/-- Claim C6: during termination, an instance whose `node_name` is the
`"unassigned"` sentinel has its record destroyed directly and no
node-scoped `terminate_instance` command is cast; an instance with an
assigned node gets the `terminate_instance` cast on its node's topic and
its record is not destroyed locally. -/
theorem terminate_instances_unassigned_direct_destroy
    (topic : String) (ctx : Context) (addrs : List Address)
    (ntopic : String) (instances : List Instance) (i : String)
    (inst : Instance)
    (hfound : _get_instance ctx instances i = Except.ok inst) :
    (inst.node_name = "unassigned" →
      (terminate_one topic ctx addrs ntopic (instances, []) i).1
        = instances.filter (fun j => j.instance_id != inst.instance_id)
      ∧ Effect.destroy inst.instance_id
          ∈ (terminate_one topic ctx addrs ntopic (instances, []) i).2
      ∧ ∀ t args1, Effect.cast t ("terminate_instance") args1
          ∉ (terminate_one topic ctx addrs ntopic (instances, []) i).2)
    ∧ (inst.node_name ≠ "unassigned" →
      (terminate_one topic ctx addrs ntopic (instances, []) i).1
        = instances
      ∧ (∀ x, Effect.destroy x
          ∉ (terminate_one topic ctx addrs ntopic (instances, []) i).2)
      ∧ Effect.cast (topic ++ "." ++ inst.node_name)
          ("terminate_instance") [(("instance_id"), i)]
          ∈ (terminate_one topic ctx addrs ntopic (instances, []) i).2) := by
  have hd1 : ("terminate_instance" : String) ≠ "disassociate_elastic_ip" :=
    by decide
  have hd2 : ("terminate_instance" : String) ≠ "deallocate_fixed_ip" :=
    by decide
  constructor
  · intro h
    have hnn : (inst.node_name != "unassigned") = false := by simp [h]
    cases h1 : truthy (get_public_ip_for_instance addrs i) with
    | true =>
      cases h2 : truthy inst.private_dns_name with
      | true =>
        simp only [terminate_one, hfound, h1, h2, hnn]
        refine ⟨rfl, by simp, ?_⟩
        intro t args1
        simp [hd1, hd2]
      | false =>
        simp only [terminate_one, hfound, h1, h2, hnn]
        refine ⟨rfl, by simp, ?_⟩
        intro t args1
        simp [hd1, hd2]
    | false =>
      cases h2 : truthy inst.private_dns_name with
      | true =>
        simp only [terminate_one, hfound, h1, h2, hnn]
        refine ⟨rfl, by simp, ?_⟩
        intro t args1
        simp [hd1, hd2]
      | false =>
        simp only [terminate_one, hfound, h1, h2, hnn]
        refine ⟨rfl, by simp, ?_⟩
        intro t args1
        simp [hd1, hd2]
  · intro h
    have hnn : (inst.node_name != "unassigned") = true := by
      simpa [bne_iff_ne] using h
    cases h1 : truthy (get_public_ip_for_instance addrs i) with
    | true =>
      cases h2 : truthy inst.private_dns_name with
      | true =>
        simp only [terminate_one, hfound, h1, h2, hnn]
        exact ⟨rfl, by intro x; simp, by simp⟩
      | false =>
        simp only [terminate_one, hfound, h1, h2, hnn]
        exact ⟨rfl, by intro x; simp, by simp⟩
    | false =>
      cases h2 : truthy inst.private_dns_name with
      | true =>
        simp only [terminate_one, hfound, h1, h2, hnn]
        exact ⟨rfl, by intro x; simp, by simp⟩
      | false =>
        simp only [terminate_one, hfound, h1, h2, hnn]
        exact ⟨rfl, by intro x; simp, by simp⟩

/-- Witness for C6 at concrete stores: the assigned instance `i-9` and the
never-scheduled instance `i-10`. -/
theorem terminate_instances_unassigned_direct_destroy_witness :
    ((exInstUnassigned.node_name = "unassigned" →
      (terminate_one ("compute") exCtx [] ("network.h1")
          ([exInstUnassigned], []) ("i-10")).1
        = [exInstUnassigned].filter
            (fun j => j.instance_id != exInstUnassigned.instance_id)
      ∧ Effect.destroy exInstUnassigned.instance_id
          ∈ (terminate_one ("compute") exCtx [] ("network.h1")
              ([exInstUnassigned], []) ("i-10")).2
      ∧ ∀ t args1, Effect.cast t ("terminate_instance") args1
          ∉ (terminate_one ("compute") exCtx [] ("network.h1")
              ([exInstUnassigned], []) ("i-10")).2)
    ∧ (exInstUnassigned.node_name ≠ "unassigned" →
      (terminate_one ("compute") exCtx [] ("network.h1")
          ([exInstUnassigned], []) ("i-10")).1
        = [exInstUnassigned]
      ∧ (∀ x, Effect.destroy x
          ∉ (terminate_one ("compute") exCtx [] ("network.h1")
              ([exInstUnassigned], []) ("i-10")).2)
      ∧ Effect.cast ("compute" ++ "." ++ exInstUnassigned.node_name)
          ("terminate_instance") [(("instance_id"), "i-10")]
          ∈ (terminate_one ("compute") exCtx [] ("network.h1")
              ([exInstUnassigned], []) ("i-10")).2))
    ∧ exInstUnassigned.node_name = "unassigned" :=
  ⟨terminate_instances_unassigned_direct_destroy ("compute") exCtx []
    ("network.h1") [exInstUnassigned] ("i-10") exInstUnassigned rfl, rfl⟩

/-! ## Claim C5: terminate processes each id independently -/

/-- Claim C5: `terminate_instances` handles each requested id
independently: the call returns `True` whatever the per-id outcomes; an id
whose lookup raises `NotFound` is skipped without aborting (removing it
from the batch yields the very same result); and an id whose lookup
succeeds receives its full cleanup — the optional elastic-address
disassociation, the optional fixed-address release, and the node-scoped
terminate or the direct destroy. -/
theorem terminate_instances_batch_independent
    (topic : String) (ctx : Context) (addrs : List Address)
    (ntopic : String) (instances : List Instance)
    (pre post : List String) (b : String)
    (hmiss : exceptOk (_get_instance ctx
        (pre.foldl (terminate_one topic ctx addrs ntopic)
          (instances, [])).1 b) = false)
    (st : List Instance × List Effect) (a : String) (instA : Instance)
    (hfound : _get_instance ctx st.1 a = Except.ok instA) :
    (terminate_instances topic ctx addrs ntopic instances
        (pre ++ b :: post)).2 = true
    ∧ terminate_instances topic ctx addrs ntopic instances
        (pre ++ b :: post)
      = terminate_instances topic ctx addrs ntopic instances (pre ++ post)
    ∧ terminate_one topic ctx addrs ntopic st a
      = ((if instA.node_name != "unassigned" then st.1
          else st.1.filter (fun j => j.instance_id != instA.instance_id)),
         st.2
           ++ (if truthy (get_public_ip_for_instance addrs a) then
                 [Effect.cast ntopic ("disassociate_elastic_ip")
                   [(("elastic_ip"),
                     (get_public_ip_for_instance addrs a).getD (""))]]
               else [])
           ++ (if truthy instA.private_dns_name then
                 [Effect.cast ntopic ("deallocate_fixed_ip")
                   [(("fixed_ip"), instA.private_dns_name.getD (""))]]
               else [])
           ++ (if instA.node_name != "unassigned" then
                 [Effect.cast (topic ++ "." ++ instA.node_name)
                   ("terminate_instance") [(("instance_id"), a)]]
               else [Effect.destroy instA.instance_id])) := by
  have hskip : ∀ A : List Instance × List Effect,
      exceptOk (_get_instance ctx A.1 b) = false →
      terminate_one topic ctx addrs ntopic A b = A := by
    intro A hA
    cases hg : _get_instance ctx A.1 b with
    | ok inst =>
      rw [hg] at hA
      simp [exceptOk] at hA
    | error e =>
      unfold terminate_one
      rw [hg]
  refine ⟨rfl, ?_, ?_⟩
  · unfold terminate_instances
    rw [List.foldl_append, List.foldl_append, List.foldl_cons,
      hskip _ hmiss]
  · cases h1 : truthy (get_public_ip_for_instance addrs a) with
    | true =>
      cases h2 : truthy instA.private_dns_name with
      | true =>
        cases h3 : instA.node_name != "unassigned" with
        | true =>
          simp only [terminate_one, hfound, h1, h2, h3]
          simp [List.append_assoc]
        | false =>
          simp only [terminate_one, hfound, h1, h2, h3]
          simp [List.append_assoc]
      | false =>
        cases h3 : instA.node_name != "unassigned" with
        | true =>
          simp only [terminate_one, hfound, h1, h2, h3]
          simp [List.append_assoc]
        | false =>
          simp only [terminate_one, hfound, h1, h2, h3]
          simp [List.append_assoc]
    | false =>
      cases h2 : truthy instA.private_dns_name with
      | true =>
        cases h3 : instA.node_name != "unassigned" with
        | true =>
          simp only [terminate_one, hfound, h1, h2, h3]
          simp [List.append_assoc]
        | false =>
          simp only [terminate_one, hfound, h1, h2, h3]
          simp [List.append_assoc]
      | false =>
        cases h3 : instA.node_name != "unassigned" with
        | true =>
          simp only [terminate_one, hfound, h1, h2, h3]
          simp [List.append_assoc]
        | false =>
          simp only [terminate_one, hfound, h1, h2, h3]
          simp [List.append_assoc]

/-- Witness for C5 at concrete stores: the batch `[i-9, i-404, i-10]`
where `i-404` does not exist, over the stores of `exInst` and
`exInstUnassigned`. -/
theorem terminate_instances_batch_independent_witness :
    ((terminate_instances ("compute") exCtx [] ("network.h1")
        [exInst, exInstUnassigned] (["i-9"] ++ "i-404" :: ["i-10"])).2
      = true
    ∧ terminate_instances ("compute") exCtx [] ("network.h1")
        [exInst, exInstUnassigned] (["i-9"] ++ "i-404" :: ["i-10"])
      = terminate_instances ("compute") exCtx [] ("network.h1")
        [exInst, exInstUnassigned] (["i-9"] ++ ["i-10"])
    ∧ terminate_one ("compute") exCtx [] ("network.h1")
        ([exInst, exInstUnassigned], []) ("i-9")
      = ((if exInst.node_name != "unassigned" then [exInst, exInstUnassigned]
          else [exInst, exInstUnassigned].filter
            (fun j => j.instance_id != exInst.instance_id)),
         ([] : List Effect)
           ++ (if truthy (get_public_ip_for_instance [] ("i-9")) then
                 [Effect.cast ("network.h1") ("disassociate_elastic_ip")
                   [(("elastic_ip"),
                     (get_public_ip_for_instance [] ("i-9")).getD (""))]]
               else [])
           ++ (if truthy exInst.private_dns_name then
                 [Effect.cast ("network.h1") ("deallocate_fixed_ip")
                   [(("fixed_ip"), exInst.private_dns_name.getD (""))]]
               else [])
           ++ (if exInst.node_name != "unassigned" then
                 [Effect.cast ("compute" ++ "." ++ exInst.node_name)
                   ("terminate_instance") [(("instance_id"), "i-9")]]
               else [Effect.destroy exInst.instance_id]))) :=
  terminate_instances_batch_independent ("compute") exCtx []
    ("network.h1") [exInst, exInstUnassigned] ["i-9"] ["i-10"] ("i-404")
    (by decide) ([exInst, exInstUnassigned], []) ("i-9") exInst rfl

/-! ## Grouping lemmas for the reservation formatting fold -/

/-- Every view found in the grouping after an `addRes` step either was
already there or is the view just inserted. -/
lemma addRes_view_sources (rs : List Reservation) (inst : Instance)
    (v w : InstanceView) (r1 : Reservation)
    (hr1 : r1 ∈ addRes rs inst v) (hw : w ∈ r1.instances_set) :
    (∃ r ∈ rs, w ∈ r.instances_set) ∨ w = v := by
  unfold addRes at hr1
  cases hany : rs.any (fun r => r.reservation_id == inst.reservation_id) with
  | true =>
    rw [hany] at hr1
    simp only [if_true] at hr1
    obtain ⟨r0, hr0, heq⟩ := List.mem_map.mp hr1
    by_cases hc : r0.reservation_id == inst.reservation_id
    · rw [if_pos hc] at heq
      rw [← heq] at hw
      rcases List.mem_append.mp hw with hin | hv
      · exact Or.inl ⟨r0, hr0, hin⟩
      · exact Or.inr (List.mem_singleton.mp hv)
    · rw [if_neg hc] at heq
      rw [← heq] at hw
      exact Or.inl ⟨r0, hr0, hw⟩
  | false =>
    rw [hany] at hr1
    simp only [Bool.false_eq_true, if_false] at hr1
    rcases List.mem_append.mp hr1 with hin | hnew
    · exact Or.inl ⟨r1, hin, hw⟩
    · rw [List.mem_singleton.mp hnew] at hw
      exact Or.inr (List.mem_singleton.mp hw)

/-- A view already present in the grouping survives an `addRes` step. -/
lemma addRes_view_preserved (rs : List Reservation) (inst : Instance)
    (v w : InstanceView) (hw : ∃ r ∈ rs, w ∈ r.instances_set) :
    ∃ r1 ∈ addRes rs inst v, w ∈ r1.instances_set := by
  obtain ⟨r, hr, hwr⟩ := hw
  unfold addRes
  cases hany : rs.any (fun r => r.reservation_id == inst.reservation_id) with
  | true =>
    simp only [if_true]
    refine ⟨if r.reservation_id == inst.reservation_id then
      { r with instances_set := r.instances_set ++ [v] } else r,
      List.mem_map.mpr ⟨r, hr, rfl⟩, ?_⟩
    by_cases hc : r.reservation_id == inst.reservation_id
    · rw [if_pos hc]
      exact List.mem_append.mpr (Or.inl hwr)
    · rw [if_neg hc]
      exact hwr
  | false =>
    simp only [Bool.false_eq_true, if_false]
    exact ⟨r, List.mem_append.mpr (Or.inl hr), hwr⟩

/-- The inserted view is present in the grouping after an `addRes` step. -/
lemma addRes_view_added (rs : List Reservation) (inst : Instance)
    (v : InstanceView) :
    ∃ r1 ∈ addRes rs inst v, v ∈ r1.instances_set := by
  unfold addRes
  cases hany : rs.any (fun r => r.reservation_id == inst.reservation_id) with
  | true =>
    simp only [if_true]
    obtain ⟨r, hr, hc⟩ := List.any_eq_true.mp hany
    refine ⟨{ r with instances_set := r.instances_set ++ [v] },
      List.mem_map.mpr ⟨r, hr, by rw [if_pos hc]⟩, ?_⟩
    exact List.mem_append.mpr (Or.inr (List.mem_singleton.mpr rfl))
  | false =>
    simp only [Bool.false_eq_true, if_false]
    exact ⟨_, List.mem_append.mpr (Or.inr (List.mem_singleton.mpr rfl)),
      List.mem_singleton.mpr rfl⟩

/-- A view present in the accumulator survives the whole formatting fold. -/
lemma foldl_addRes_view_stable (ctx : Context) (addrs : List Address)
    (l : List Instance) (rs : List Reservation) (w : InstanceView)
    (hw : ∃ r ∈ rs, w ∈ r.instances_set) :
    ∃ r ∈ l.foldl (fun acc j => addRes acc j (instView ctx addrs j)) rs,
      w ∈ r.instances_set := by
  induction l generalizing rs with
  | nil => simpa using hw
  | cons x xs ih =>
    rw [List.foldl_cons]
    exact ih _ (addRes_view_preserved rs x _ w hw)

/-- Every view in the result of the formatting fold satisfies any property
holding of the initial accumulator's views and of the view of every folded
instance. -/
lemma foldl_addRes_view_all (ctx : Context) (addrs : List Address)
    (l : List Instance) (rs : List Reservation) (P : InstanceView → Prop)
    (h0 : ∀ r ∈ rs, ∀ w ∈ r.instances_set, P w)
    (h1 : ∀ i ∈ l, P (instView ctx addrs i)) :
    ∀ r ∈ l.foldl (fun acc j => addRes acc j (instView ctx addrs j)) rs,
      ∀ w ∈ r.instances_set, P w := by
  induction l generalizing rs with
  | nil =>
    intro r hr
    rw [List.foldl_nil] at hr
    exact h0 r hr
  | cons x xs ih =>
    intro r hr w hw
    rw [List.foldl_cons] at hr
    refine ih (addRes rs x (instView ctx addrs x)) ?_ ?_ r hr w hw
    · intro r1 hr1 w1 hw1
      rcases addRes_view_sources rs x _ w1 r1 hr1 hw1 with ⟨r0, h, hh⟩ | heq
      · exact h0 r0 h w1 hh
      · rw [heq]
        exact h1 x (List.mem_cons_self x xs)
    · intro i hi
      exact h1 i (List.mem_cons_of_mem x hi)

/-- The view of every folded instance appears somewhere in the result of
the formatting fold. -/
lemma foldl_addRes_view_complete (ctx : Context) (addrs : List Address)
    (l : List Instance) (rs : List Reservation) (i : Instance)
    (hi : i ∈ l) :
    ∃ r ∈ l.foldl (fun acc j => addRes acc j (instView ctx addrs j)) rs,
      instView ctx addrs i ∈ r.instances_set := by
  induction l generalizing rs with
  | nil => cases hi
  | cons x xs ih =>
    rw [List.foldl_cons]
    rcases List.mem_cons.mp hi with heq | hmem
    · rw [heq]
      exact foldl_addRes_view_stable ctx addrs xs _ _
        (addRes_view_added rs x (instView ctx addrs x))
    · exact ih _ hmem

/-! ## Claim C8: the VPN bootstrap image is hidden from non-admins -/

/-- Claim C8: an instance whose `image_id` equals the configured
bootstrap-VPN image id never appears in any reservation returned by a
non-admin `describe_instances` (indeed no returned view carries the VPN
image id), while an admin `describe_instances` does include it. -/
theorem vpn_image_hidden_from_nonadmin
    (vpn : String) (ctxN ctxA : Context) (addrs : List Address)
    (instances : List Instance) (inst : Instance)
    (hN : ctxN.isAdmin = false) (hA : ctxA.isAdmin = true)
    (hmem : inst ∈ instances) (hvpn : inst.image_id = vpn) :
    (∀ r ∈ describe_instances vpn ctxN addrs instances,
      ∀ v ∈ r.instances_set, v.image_id ≠ vpn)
    ∧ (∃ r ∈ describe_instances vpn ctxA addrs instances,
      ∃ v ∈ r.instances_set,
        v.instance_id = inst.instance_id ∧ v.image_id = vpn) := by
  constructor
  · intro r hr w hw
    simp only [describe_instances, _format_instances] at hr
    refine foldl_addRes_view_all ctxN addrs _ []
      (fun v => v.image_id ≠ vpn) (by simp) ?_ r hr w hw
    intro i hi
    have hf := (List.mem_filter.mp hi).2
    simp only [formatFilter, hN, Bool.false_or, Bool.true_and,
      bne_iff_ne, ne_eq] at hf
    exact hf
  · simp only [describe_instances, _format_instances]
    rw [if_pos hA]
    have hmemf : inst ∈ instances.filter (formatFilter vpn ctxA none) := by
      rw [List.mem_filter]
      refine ⟨hmem, ?_⟩
      simp [formatFilter, hA]
    obtain ⟨r, hr, hv⟩ :=
      foldl_addRes_view_complete ctxA addrs _ [] inst hmemf
    exact ⟨r, hr, instView ctxA addrs inst, hv, rfl, hvpn⟩

/-- Witness for C8 at a concrete store holding one VPN-image instance. -/
theorem vpn_image_hidden_from_nonadmin_witness :
    (∀ r ∈ describe_instances ("ami-vpn") exCtx []
        [{ exInst with image_id := "ami-vpn" }],
      ∀ v ∈ r.instances_set, v.image_id ≠ "ami-vpn")
    ∧ (∃ r ∈ describe_instances ("ami-vpn") exCtxAdmin []
        [{ exInst with image_id := "ami-vpn" }],
      ∃ v ∈ r.instances_set,
        v.instance_id = ({ exInst with image_id := "ami-vpn" }
          : Instance).instance_id
        ∧ v.image_id = "ami-vpn") :=
  vpn_image_hidden_from_nonadmin ("ami-vpn") exCtx exCtxAdmin []
    [{ exInst with image_id := "ami-vpn" }]
    { exInst with image_id := "ami-vpn" } rfl rfl
    (List.mem_singleton.mpr rfl) rfl

/-! ## Lemmas for the run_instances result formatting -/

/-- The records surviving the project and reservation-id filters of the
formatting pass are exactly the fresh batch `b`, when every pre-existing
record of `a` carries another reservation id, the batch belongs to the
caller's project, and (for a non-admin) the batch does not use the VPN
image. -/
lemma filter_formatFilter_fresh (vpn : String) (ctx : Context) (R : String)
    (a b : List Instance)
    (ha : ∀ i ∈ a, i.reservation_id ≠ R)
    (hb1 : ∀ i ∈ b, i.reservation_id = R)
    (hb2 : ∀ i ∈ b, i.project_id = ctx.projectId)
    (hb3 : ctx.isAdmin = false → ∀ i ∈ b, i.image_id ≠ vpn) :
    ((if ctx.isAdmin then a ++ b
      else (a ++ b).filter (fun i => i.project_id == ctx.projectId)).filter
        (formatFilter vpn ctx (some R))) = b := by
  have hfa : ∀ i ∈ a, ¬ formatFilter vpn ctx (some R) i = true := by
    intro i hi hcontra
    simp only [formatFilter, Bool.and_eq_true, beq_iff_eq] at hcontra
    exact ha i hi hcontra.1.symm
  have hfb : ∀ i ∈ b, formatFilter vpn ctx (some R) i = true := by
    intro i hi
    simp only [formatFilter, Bool.and_eq_true, beq_iff_eq]
    refine ⟨(hb1 i hi).symm, ?_⟩
    cases hAd : ctx.isAdmin with
    | true => simp
    | false =>
      simp only [Bool.false_or, bne_iff_ne, ne_eq]
      exact hb3 hAd i hi
  cases hAd : ctx.isAdmin with
  | true =>
    rw [if_pos rfl, List.filter_append,
      List.filter_eq_nil_iff.mpr hfa, List.filter_eq_self.mpr hfb,
      List.nil_append]
  | false =>
    rw [if_neg (by simp), List.filter_append]
    have hbp : b.filter (fun i => i.project_id == ctx.projectId) = b :=
      List.filter_eq_self.mpr (fun i hi => by simp [hb2 i hi])
    rw [hbp, List.filter_append]
    have hap : (a.filter (fun i => i.project_id == ctx.projectId)).filter
        (formatFilter vpn ctx (some R)) = [] :=
      List.filter_eq_nil_iff.mpr
        (fun i hi => hfa i (List.mem_filter.mp hi).1)
    rw [hap, List.filter_eq_self.mpr hfb, List.nil_append]

/-- Folding the reservation grouping over instances that all share the
accumulated reservation's id only ever appends their views to that single
reservation. -/
lemma foldl_addRes_single (ctx : Context) (addrs : List Address)
    (l : List Instance) (r : Reservation)
    (hR : ∀ i ∈ l, i.reservation_id = r.reservation_id) :
    l.foldl (fun acc j => addRes acc j (instView ctx addrs j)) [r]
      = [{ r with instances_set :=
            r.instances_set ++ l.map (instView ctx addrs) }] := by
  induction l generalizing r with
  | nil => simp
  | cons x xs ih =>
    rw [List.foldl_cons]
    have hx : x.reservation_id = r.reservation_id :=
      hR x (List.mem_cons_self x xs)
    have hstep : addRes [r] x (instView ctx addrs x)
        = [{ r with instances_set :=
              r.instances_set ++ [instView ctx addrs x] }] := by
      unfold addRes
      have hc : ([r].any (fun q => q.reservation_id == x.reservation_id))
          = true := by simp [hx]
      rw [hc]
      simp [hx]
    rw [hstep,
      ih { r with instances_set :=
            r.instances_set ++ [instView ctx addrs x] }
        (fun i hi => by simpa using hR i (List.mem_cons_of_mem x hi))]
    simp [List.append_assoc]

/-! ## Claim C1: run_instances produces one uniform reservation -/

/-- Claim C1: a `run_instances` call with `max_count = N ≥ 1` that
completes successfully returns a summary describing exactly one
reservation with `N` instance entries whose `ami_launch_index` values are
exactly `0..N-1` (each unique), and every one of the `N` persisted records
carries the same freshly generated `reservation_id` and the same
`launch_time`.  The hypotheses are exactly the call's success conditions
(image, kernel, ramdisk and key pair resolved; the VPN image neither
requested nor — for a non-admin — delivered by the registry; the generated
reservation id fresh, as id generation is collision-free by construction),
and the theorem also proves that the call succeeds under them. -/
theorem run_instances_single_reservation
    (fl : Flags) (ctx : Context) (env : RunEnv) (addrs : List Address)
    (args : RunArgs) (image : Image)
    (hvpn : args.image_id ≠ fl.vpn_image_id)
    (himg : _get_image env.images args.image_id = Except.ok image)
    (hker : exceptOk (_get_image env.images
      (args.kernel_id.getD (image.kernelId.getD fl.default_kernel)))
      = true)
    (hram : exceptOk (_get_image env.images
      (args.ramdisk_id.getD (image.ramdiskId.getD fl.default_ramdisk)))
      = true)
    (hkey : exceptOk (resolve_key_data env args) = true)
    (hvpn2 : ctx.isAdmin = false → image.imageId ≠ fl.vpn_image_id)
    (hfresh : ∀ i ∈ env.instances,
      i.reservation_id ≠ env.reservation_id)
    (hN : 1 ≤ args.max_count) :
    ∃ (r : Reservation) (newInsts : List Instance) (effs : List Effect),
      run_instances fl ctx env addrs args
        = Except.ok (r, env.instances ++ newInsts, effs)
      ∧ _format_instances fl.vpn_image_id ctx addrs
          (env.instances ++ newInsts) (some env.reservation_id) = [r]
      ∧ newInsts.length = args.max_count
      ∧ r.reservation_id = env.reservation_id
      ∧ r.instances_set.length = args.max_count
      ∧ r.instances_set.map (fun v => v.ami_launch_index)
          = List.range args.max_count
      ∧ ∀ inst ∈ newInsts,
          inst.reservation_id = env.reservation_id
          ∧ inst.launch_time = env.launch_time := by
  obtain ⟨kimg, hker1⟩ : ∃ k, _get_image env.images
      (args.kernel_id.getD (image.kernelId.getD fl.default_kernel))
      = Except.ok k := by
    cases hk : _get_image env.images
        (args.kernel_id.getD (image.kernelId.getD fl.default_kernel)) with
    | ok k => exact ⟨k, rfl⟩
    | error e =>
      rw [hk] at hker
      simp [exceptOk] at hker
  obtain ⟨rimg, hram1⟩ : ∃ k, _get_image env.images
      (args.ramdisk_id.getD (image.ramdiskId.getD fl.default_ramdisk))
      = Except.ok k := by
    cases hk : _get_image env.images
        (args.ramdisk_id.getD (image.ramdiskId.getD fl.default_ramdisk)) with
    | ok k => exact ⟨k, rfl⟩
    | error e =>
      rw [hk] at hram
      simp [exceptOk] at hram
  obtain ⟨kd, hkey1⟩ : ∃ kd, resolve_key_data env args = Except.ok kd := by
    cases hk : resolve_key_data env args with
    | ok kd => exact ⟨kd, rfl⟩
    | error e =>
      rw [hk] at hkey
      simp [exceptOk] at hkey
  have hmem : ∀ i ∈ run_build ctx env args image.imageId
      (args.kernel_id.getD (image.kernelId.getD fl.default_kernel))
      (args.ramdisk_id.getD (image.ramdiskId.getD fl.default_ramdisk)) kd,
      i.reservation_id = env.reservation_id
      ∧ i.launch_time = env.launch_time
      ∧ i.project_id = ctx.projectId
      ∧ i.image_id = image.imageId := by
    intro i hi
    simp only [run_build] at hi
    obtain ⟨num, _, heq⟩ := List.mem_map.mp hi
    rw [← heq]
    exact ⟨rfl, rfl, rfl, rfl⟩
  have hlen : (run_build ctx env args image.imageId
      (args.kernel_id.getD (image.kernelId.getD fl.default_kernel))
      (args.ramdisk_id.getD (image.ramdiskId.getD fl.default_ramdisk))
      kd).length = args.max_count := by
    simp [run_build]
  have hami : (run_build ctx env args image.imageId
      (args.kernel_id.getD (image.kernelId.getD fl.default_kernel))
      (args.ramdisk_id.getD (image.ramdiskId.getD fl.default_ramdisk))
      kd).map (fun i => (instView ctx addrs i).ami_launch_index)
      = List.range args.max_count := by
    simp only [run_build, List.map_map]
    have : ((fun i => (instView ctx addrs i).ami_launch_index) ∘
        mkInst ctx env args image.imageId
          (args.kernel_id.getD (image.kernelId.getD fl.default_kernel))
          (args.ramdisk_id.getD (image.ramdiskId.getD fl.default_ramdisk))
          kd) = fun num => num := rfl
    rw [this, List.map_id']
  cases hb : run_build ctx env args image.imageId
      (args.kernel_id.getD (image.kernelId.getD fl.default_kernel))
      (args.ramdisk_id.getD (image.ramdiskId.getD fl.default_ramdisk))
      kd with
  | nil =>
    rw [hb] at hlen
    simp at hlen
    omega
  | cons i0 rest =>
    rw [hb] at hmem hlen hami
    have hsrc := filter_formatFilter_fresh fl.vpn_image_id ctx
      env.reservation_id env.instances (i0 :: rest) hfresh
      (fun i hi => (hmem i hi).1)
      (fun i hi => (hmem i hi).2.2.1)
      (fun hna i hi => by
        rw [(hmem i hi).2.2.2]
        exact hvpn2 hna)
    have hstep0 : addRes [] i0 (instView ctx addrs i0)
        = [{ reservation_id := i0.reservation_id
             owner_id := i0.project_id
             group_set := _convert_to_set i0.groups
             instances_set := [instView ctx addrs i0] }] := rfl
    have hfold := foldl_addRes_single ctx addrs rest
      { reservation_id := i0.reservation_id
        owner_id := i0.project_id
        group_set := _convert_to_set i0.groups
        instances_set := [instView ctx addrs i0] }
      (fun i hi => by
        have h1 := (hmem i (List.mem_cons_of_mem i0 hi)).1
        have h0 := (hmem i0 (List.mem_cons_self i0 rest)).1
        simpa [h1] using h0.symm)
    have hfmt : _format_instances fl.vpn_image_id ctx addrs
        (env.instances ++ (i0 :: rest)) (some env.reservation_id)
        = [{ reservation_id := i0.reservation_id
             owner_id := i0.project_id
             group_set := _convert_to_set i0.groups
             instances_set := instView ctx addrs i0
               :: rest.map (instView ctx addrs) }] := by
      simp only [_format_instances]
      rw [hsrc, List.foldl_cons, hstep0, hfold]
      simp
    have hbe : (args.image_id == fl.vpn_image_id) = false := by
      simp [hvpn]
    have hrun : run_instances fl ctx env addrs args
        = Except.ok
            ({ reservation_id := i0.reservation_id
               owner_id := i0.project_id
               group_set := _convert_to_set i0.groups
               instances_set := instView ctx addrs i0
                 :: rest.map (instView ctx addrs) },
             env.instances ++ (i0 :: rest),
             (i0 :: rest).map (fun inst =>
               Effect.cast fl.compute_topic ("run_instance")
                 [(("instance_id"), inst.instance_id)])) := by
      simp only [run_instances, hbe, Bool.false_eq_true, if_false, himg,
        hker1, hram1, hkey1, hb, hfmt]
    refine ⟨_, i0 :: rest, _, hrun, hfmt, hlen,
      (hmem i0 (List.mem_cons_self i0 rest)).1, ?_, ?_,
      fun inst hi => ⟨(hmem inst hi).1, (hmem inst hi).2.1⟩⟩
    · simpa using hlen
    · simpa using hami

/-- Flag configuration used by the launch witness. -/
def exFl : Flags :=
  { compute_topic := "compute", vpn_image_id := "ami-vpn",
    default_kernel := "aki-1", default_ramdisk := "ari-1" }

/-- Launch environment used by the launch witness: three accessible images,
no key pairs, a fixed-address allocator, a fresh reservation id and two
pre-existing records none. -/
def exRunEnv : RunEnv :=
  { images := [{ imageId := "ami-1", kernelId := none, ramdiskId := none },
               { imageId := "aki-1", kernelId := none, ramdiskId := none },
               { imageId := "ari-1", kernelId := none, ramdiskId := none }]
    keyPairs := []
    allocate := fun _ => "192.168.0.5"
    reservation_id := "r-1"
    launch_time := "2010-10-01T00:00:00Z"
    nextId := 7
    instances := [] }

/-- Request used by the launch witness: two instances of image `ami-1`. -/
def exRunArgs : RunArgs :=
  { image_id := "ami-1", kernel_id := none, ramdisk_id := none,
    key_name := none, instance_type := none, user_data := none,
    max_count := 2 }

/-- Witness for C1 at a concrete environment: launching two instances of
`ami-1` as the non-admin of project `p1`. -/
theorem run_instances_single_reservation_witness :
    ∃ (r : Reservation) (newInsts : List Instance) (effs : List Effect),
      run_instances exFl exCtx exRunEnv [] exRunArgs
        = Except.ok (r, exRunEnv.instances ++ newInsts, effs)
      ∧ _format_instances exFl.vpn_image_id exCtx []
          (exRunEnv.instances ++ newInsts)
          (some exRunEnv.reservation_id) = [r]
      ∧ newInsts.length = exRunArgs.max_count
      ∧ r.reservation_id = exRunEnv.reservation_id
      ∧ r.instances_set.length = exRunArgs.max_count
      ∧ r.instances_set.map (fun v => v.ami_launch_index)
          = List.range exRunArgs.max_count
      ∧ ∀ inst ∈ newInsts,
          inst.reservation_id = exRunEnv.reservation_id
          ∧ inst.launch_time = exRunEnv.launch_time :=
  run_instances_single_reservation exFl exCtx exRunEnv [] exRunArgs
    { imageId := "ami-1", kernelId := none, ramdiskId := none }
    (by decide) rfl rfl rfl rfl (fun _ => by decide)
    (fun i hi => absurd hi (List.not_mem_nil i)) (by decide)

end Nova
